import Mathlib

/-!
Shallow embedding of the browser-side view controller in
`src/static/app.js`.

The script is pure DOM glue around three HTTP endpoints. We model each
event handler as a total function from the DOM state it reads, together
with the outcome of its single network interaction, to the DOM state it
leaves behind plus the observable effects it issues (scheduled hide
timers, the outgoing request, and the number of activity-list refreshes
it triggers). The single-threaded event loop means each handler run is
atomic between awaits, so this state-transformer view is faithful.

Network outcomes are modelled by `HttpEvent`: a transport failure
(`fetch` rejects), or a response carrying its `ok` flag together with
the result of `response.json()` (`none` when the body fails to parse as
JSON, which makes the awaited `json()` call reject inside the `try`).
-/

/-- One record of the JSON array served by `GET /activities`, with the
fields the script reads: `name`, `description`, `schedule`,
`max_participants`, `current_participants`, and `id` (used as the
option value). Participant counts are integers, as the script only
subtracts them. -/
structure Activity where
  id : String
  name : String
  description : String
  schedule : String
  max_participants : Int
  current_participants : Int
  deriving DecidableEq

/-- `const spotsLeft = activity.max_participants - activity.current_participants`. -/
def spotsLeft (a : Activity) : Int :=
  a.max_participants - a.current_participants

/-- The template literal assigned to `activityCard.innerHTML`,
reproduced with its exact whitespace. The availability segment is
grouped so its displayed spots-left text is an explicit subterm. -/
def cardInnerHtml (a : Activity) : String :=
  ("\n          <h4>" ++ a.name ++ "</h4>\n          <p>" ++ a.description ++
    "</p>\n          <p><strong>Schedule:</strong> " ++ a.schedule ++
    "</p>\n          <p><strong>Availability:</strong> ")
  ++ (toString (spotsLeft a) ++ " spots left")
  ++ "</p>\n        "

/-- Serialization of one activity card child of the list container: a
`div` with class `activity-card` holding `cardInnerHtml`. -/
def activityCardHtml (a : Activity) : String :=
  "<div class=\"activity-card\">" ++ cardInnerHtml a ++ "</div>"

/-- The fallback markup assigned to `activitiesList.innerHTML` in the
catch branch of `fetchActivities`. -/
def failedToLoadHtml : String :=
  "<p>Failed to load activities. Please try again later.</p>"

/-- An `option` element of the activity dropdown: its `value` and
`textContent`. -/
structure SelectOption where
  value : String
  textContent : String
  deriving DecidableEq

/-- `option.value = activity.id; option.textContent = activity.name`. -/
def optionFor (a : Activity) : SelectOption :=
  { value := a.id, textContent := a.name }

/-- The two DOM containers `fetchActivities` mutates: the children of
the activities list (each child as its markup) and the options of the
activity dropdown. -/
structure ActivitiesDom where
  activitiesList : List String
  activitySelect : List SelectOption
  deriving DecidableEq

/-- Outcome of the `GET /activities` interaction: `failure` covers a
rejected `fetch` and a body that fails to parse as JSON (both reject an
awaited promise before any DOM write of the success path lands), and
`success` carries the parsed array. -/
inductive ActivitiesFetch where
  | failure
  | success (activities : List Activity)
  deriving DecidableEq

/-- The `fetchActivities` function: on success it sets
`activitiesList.innerHTML = ""` and then, per activity in array order,
appends a card to the list and an option to the dropdown (the dropdown
is never cleared); on failure the catch branch replaces the list
content with the fallback paragraph and touches nothing else. It is a
total function: no exception escapes. -/
def fetchActivities (ev : ActivitiesFetch) (dom : ActivitiesDom) : ActivitiesDom :=
  match ev with
  | .success activities =>
      { activitiesList := activities.map activityCardHtml
        activitySelect := dom.activitySelect ++ activities.map optionFor }
  | .failure =>
      { dom with activitiesList := [failedToLoadHtml] }

/-- A status-message element: its `textContent` and its class list.
`element.className = s` replaces the whole class list; `classList.add`
and `classList.remove` edit single tokens. -/
structure MessageDiv where
  textContent : String
  classes : List String
  deriving DecidableEq

/-- `element.className = c`: the class attribute becomes exactly `c`. -/
def setClassName (m : MessageDiv) (c : String) : MessageDiv :=
  { m with classes := [c] }

/-- `element.classList.remove(c)`. -/
def classListRemove (m : MessageDiv) (c : String) : MessageDiv :=
  { m with classes := m.classes.filter (fun s => s != c) }

/-- `element.classList.add(c)`: a `DOMTokenList` holds no duplicates. -/
def classListAdd (m : MessageDiv) (c : String) : MessageDiv :=
  if c ∈ m.classes then m else { m with classes := m.classes ++ [c] }

/-- A message element is hidden when its class list carries `hidden`. -/
def isHidden (m : MessageDiv) : Bool :=
  m.classes.contains "hidden"

/-- The callback passed to `setTimeout`: `classList.add("hidden")`. -/
def hideMessage (m : MessageDiv) : MessageDiv :=
  classListAdd m "hidden"

/-- Outcome of one awaited request/parse pair: `netFail` when `fetch`
rejects, otherwise the response `ok` flag with the parsed JSON body
(`none` when `response.json()` rejects). -/
inductive HttpEvent (β : Type) where
  | netFail
  | resp (ok : Bool) (parsed : Option β)
  deriving DecidableEq

/-- JavaScript `x || fallback` where `x` is a string field that may be
absent (`undefined`): the empty string is falsy, so it also selects the
fallback. -/
def jsStringOr (v : Option String) (fallback : String) : String :=
  match v with
  | none => fallback
  | some s => if s = "" then fallback else s

/-- The four registration form fields, read verbatim at submit time. -/
structure RegisterForm where
  regEmail : String
  firstName : String
  lastName : String
  password : String
  deriving DecidableEq

/-- `registerForm.reset()`: all fields back to their empty defaults. -/
def resetRegisterForm : RegisterForm :=
  { regEmail := "", firstName := "", lastName := "", password := "" }

/-- The JSON body of a `/register` response as the script reads it:
only the optional `detail` field matters. -/
structure RegisterResult where
  detail : Option String
  deriving DecidableEq

/-- Observables of one run of the register submit handler: the final
form fields, the final state of `regMessageDiv`, and the delays of the
hide timers it scheduled via `setTimeout`. -/
structure RegisterRun where
  form : RegisterForm
  message : MessageDiv
  hideDelays : List Nat
  deriving DecidableEq

/-- The catch branch of the register handler: set the failure text, set
`className = "error"`, remove `hidden`; no `setTimeout` is scheduled
here. -/
def registerCatchRun (form : RegisterForm) (msg : MessageDiv) : RegisterRun :=
  { form := form
    message := classListRemove
      (setClassName { msg with textContent := "Failed to register. Please try again." } "error")
      "hidden"
    hideDelays := [] }

/-- The register form submit handler. The body is awaited as JSON
before `response.ok` is tested, so a response whose body does not parse
lands in the catch branch whatever its status. Both response branches
fall through to `classList.remove("hidden")` and a 5000 ms hide
timer; only the ok-branch resets the form. -/
def registerSubmit (form : RegisterForm) (msg : MessageDiv)
    (ev : HttpEvent RegisterResult) : RegisterRun :=
  match ev with
  | .resp ok (some result) =>
      if ok then
        { form := resetRegisterForm
          message := classListRemove
            (setClassName { msg with textContent := "Registration successful!" } "success")
            "hidden"
          hideDelays := [5000] }
      else
        { form := form
          message := classListRemove
            (setClassName
              { msg with textContent := jsStringOr result.detail "Registration failed" } "error")
            "hidden"
          hideDelays := [5000] }
  | .resp _ none => registerCatchRun form msg
  | .netFail => registerCatchRun form msg

/-- The signup form fields read at submit time: the email input and the
selected activity value. -/
structure SignupForm where
  email : String
  activity : String
  deriving DecidableEq

/-- `signupForm.reset()`: fields back to their empty defaults. -/
def resetSignupForm : SignupForm :=
  { email := "", activity := "" }

/-- The JSON body of a signup response as the script reads it: the
optional `message` (success branch) and `detail` (error branch). -/
structure SignupResult where
  message : Option String
  detail : Option String
  deriving DecidableEq

/-- Setting `textContent` from a field that may be `undefined`: the DOM
stringifies `undefined` to the text `undefined`. -/
def jsTextOf (v : Option String) : String :=
  match v with
  | some s => s
  | none => "undefined"

/-- ECMAScript `encodeURIComponent` leaves these code points as is:
ASCII letters, digits, and `- _ . ! ~ * ( )` together with the
apostrophe (code 39). -/
def isUriUnreserved (c : Char) : Bool :=
  let n := c.toNat
  decide ((65 ≤ n ∧ n ≤ 90) ∨ (97 ≤ n ∧ n ≤ 122) ∨ (48 ≤ n ∧ n ≤ 57) ∨
    n ∈ ([45, 95, 46, 33, 126, 42, 39, 40, 41] : List Nat))

/-- UTF-8 byte sequence of a Unicode code point, as percent-encoding
operates on the UTF-8 encoding of the string. -/
def utf8Bytes (n : Nat) : List Nat :=
  if n < 128 then [n]
  else if n < 2048 then [192 + n / 64, 128 + n % 64]
  else if n < 65536 then [224 + n / 4096, 128 + (n / 64) % 64, 128 + n % 64]
  else [240 + n / 262144, 128 + (n / 4096) % 64, 128 + (n / 64) % 64, 128 + n % 64]

/-- Uppercase hexadecimal digit for a value below 16. -/
def hexDigitChar (n : Nat) : Char :=
  if n < 10 then Char.ofNat (48 + n) else Char.ofNat (55 + n)

/-- `%XX` escape of one byte, uppercase hex as `encodeURIComponent`
emits it. -/
def percentByte (b : Nat) : List Char :=
  [Char.ofNat 37, hexDigitChar (b / 16), hexDigitChar (b % 16)]

/-- Flatten a list of lists. -/
def flatChars (xss : List (List Char)) : List Char :=
  xss.foldr (fun xs acc => xs ++ acc) []

/-- Model of ECMAScript `encodeURIComponent`: unreserved code points
pass through, every other code point is replaced by the `%XX` escapes
of its UTF-8 bytes. -/
def encodeURIComponent (s : String) : String :=
  String.mk (flatChars (s.data.map (fun c =>
    if isUriUnreserved c then [c] else flatChars ((utf8Bytes c.toNat).map percentByte))))

/-- The URL the signup handler builds:
`/activities/{encodeURIComponent(activity)}/signup?email={encodeURIComponent(email)}`. -/
def signupRequestUrl (activity email : String) : String :=
  "/activities/" ++ encodeURIComponent activity ++ "/signup?email=" ++ encodeURIComponent email

/-- Observables of one run of the signup submit handler: final form
fields, final state of `messageDiv`, scheduled hide-timer delays, how
many times `fetchActivities()` was triggered, and the issued request. -/
structure SignupRun where
  form : SignupForm
  message : MessageDiv
  hideDelays : List Nat
  refreshCount : Nat
  requestMethod : String
  requestUrl : String
  deriving DecidableEq

/-- The catch branch of the signup handler: failure text, `className =
"error"`, remove `hidden`; no `setTimeout`, no refresh. -/
def signupCatchRun (form : SignupForm) (msg : MessageDiv) : SignupRun :=
  { form := form
    message := classListRemove
      (setClassName { msg with textContent := "Failed to sign up. Please try again." } "error")
      "hidden"
    hideDelays := []
    refreshCount := 0
    requestMethod := "POST"
    requestUrl := signupRequestUrl form.activity form.email }

/-- The signup form submit handler. It always issues
`POST signupRequestUrl`; the body is parsed before `response.ok` is
tested; the ok-branch shows `result.message`, resets the form and
triggers `fetchActivities()` once; the not-ok branch shows
`result.detail || "An error occurred"`; both response branches schedule
the 5000 ms hide timer, the catch branch does not. -/
def signupSubmit (form : SignupForm) (msg : MessageDiv)
    (ev : HttpEvent SignupResult) : SignupRun :=
  match ev with
  | .resp ok (some result) =>
      if ok then
        { form := resetSignupForm
          message := classListRemove
            (setClassName { msg with textContent := jsTextOf result.message } "success")
            "hidden"
          hideDelays := [5000]
          refreshCount := 1
          requestMethod := "POST"
          requestUrl := signupRequestUrl form.activity form.email }
      else
        { form := form
          message := classListRemove
            (setClassName
              { msg with textContent := jsStringOr result.detail "An error occurred" } "error")
            "hidden"
          hideDelays := [5000]
          refreshCount := 0
          requestMethod := "POST"
          requestUrl := signupRequestUrl form.activity form.email }
  | .resp _ none => signupCatchRun form msg
  | .netFail => signupCatchRun form msg

/-- A concrete activity used by counterexample runs. -/
def cexActivity : Activity :=
  { id := "chess", name := "Chess Club", description := "Play chess", schedule := "Mondays"
    max_participants := 12, current_participants := 5 }

/-- A concrete message element (initially hidden) used by concrete runs. -/
def msg0 : MessageDiv :=
  { textContent := "", classes := ["hidden"] }

/-- A concrete, non-empty registration form used by concrete runs. -/
def regForm0 : RegisterForm :=
  { regEmail := "ann@example.com", firstName := "Ann", lastName := "Lee", password := "pw" }

/-- C1 counterexample: two successive successful refreshes, each
serving the single activity `cexActivity`, leave the dropdown with two
options, not the one option per activity of the response array that the
claim requires; the dropdown is never cleared. -/
theorem c1_dropdown_accumulates_counterexample :
    (fetchActivities (.success [cexActivity])
        (fetchActivities (.success [cexActivity]) ⟨[], []⟩)).activitySelect.length = 2 ∧
    [cexActivity].length = 1 := by
  decide

/-- C1 (amended): on a successful fetch the rendered list is cleared
and repopulated with one card per activity in array order, but the
dropdown is NOT cleared: the options of the response array are appended
after whatever options the dropdown already had. -/
theorem c1_fetch_success_list_cleared_dropdown_appended
    (dom : ActivitiesDom) (activities : List Activity) :
    (fetchActivities (.success activities) dom).activitiesList
      = activities.map activityCardHtml ∧
    (fetchActivities (.success activities) dom).activitySelect
      = dom.activitySelect ++ activities.map optionFor := by
  exact ⟨rfl, rfl⟩

/-- C1 witness: the amended statement evaluated on a concrete state
holding one prior option and a one-activity response. -/
theorem c1_fetch_success_witness :
    (fetchActivities (.success [cexActivity]) ⟨[], [⟨"x", "X"⟩]⟩).activitiesList
      = [cexActivity].map activityCardHtml ∧
    (fetchActivities (.success [cexActivity]) ⟨[], [⟨"x", "X"⟩]⟩).activitySelect
      = [⟨"x", "X"⟩] ++ [cexActivity].map optionFor :=
  c1_fetch_success_list_cleared_dropdown_appended ⟨[], [⟨"x", "X"⟩]⟩ [cexActivity]

/-- C2 counterexample: on a transport failure of `/register` the catch
branch shows the failure message but schedules no hide timer at all, so
the message is not hidden after 5000 ms even though nothing overwrites
it. -/
theorem c2_no_timer_on_catch_counterexample :
    (registerSubmit regForm0 msg0 .netFail).hideDelays = [] ∧
    isHidden (registerSubmit regForm0 msg0 .netFail).message = false := by
  decide

/-- C2 (amended): a 5000 ms hide timer is scheduled exactly when the
handler reaches a response branch (the response body parsed as JSON),
for both forms and both `ok` values; on a transport or JSON-parse
failure no hide timer is scheduled, so the catch-branch message stays
until overwritten. Firing the scheduled timer hides the message. -/
theorem c2_hide_timer_on_response_branches_only
    (f : RegisterForm) (sf : SignupForm) (m : MessageDiv) (ok : Bool)
    (r : RegisterResult) (s : SignupResult) :
    (registerSubmit f m (.resp ok (some r))).hideDelays = [5000] ∧
    (registerSubmit f m .netFail).hideDelays = [] ∧
    (registerSubmit f m (.resp ok none)).hideDelays = [] ∧
    (signupSubmit sf m (.resp ok (some s))).hideDelays = [5000] ∧
    (signupSubmit sf m .netFail).hideDelays = [] ∧
    (signupSubmit sf m (.resp ok none)).hideDelays = [] ∧
    isHidden (hideMessage (registerSubmit f m (.resp ok (some r))).message) = true ∧
    isHidden (hideMessage (signupSubmit sf m (.resp ok (some s))).message) = true := by
  cases ok <;>
    simp [registerSubmit, signupSubmit, registerCatchRun, signupCatchRun, hideMessage,
      classListAdd, classListRemove, setClassName, isHidden]

/-- C3 counterexample: a `/register` response with `ok` true whose body
fails to parse as JSON (`response.json()` is awaited before
`response.ok` is tested) lands in the catch branch: the form keeps its
values instead of being reset, and the failure message is shown instead
of the success one. -/
theorem c3_ok_with_unparsable_body_counterexample :
    (registerSubmit regForm0 msg0 (.resp true none)).form = regForm0 ∧
    regForm0 ≠ resetRegisterForm ∧
    (registerSubmit regForm0 msg0 (.resp true none)).message.textContent
      = "Failed to register. Please try again." := by
  decide

/-- C3 (amended): for every `/register` response with `ok` true whose
body parses as JSON (whatever the parsed content), the form is reset to
empty and the success message is shown visible with the success
styling. -/
theorem c3_register_ok_resets_and_shows_success
    (f : RegisterForm) (m : MessageDiv) (r : RegisterResult) :
    (registerSubmit f m (.resp true (some r))).form = resetRegisterForm ∧
    (registerSubmit f m (.resp true (some r))).message.textContent
      = "Registration successful!" ∧
    (registerSubmit f m (.resp true (some r))).message.classes = ["success"] ∧
    isHidden (registerSubmit f m (.resp true (some r))).message = false := by
  simp [registerSubmit, setClassName, classListRemove, isHidden]

/-- C3 witness: the amended statement evaluated at a concrete non-empty
form and an arbitrary parsed body. -/
theorem c3_register_ok_witness :
    (registerSubmit regForm0 msg0 (.resp true (some ⟨none⟩))).form = resetRegisterForm ∧
    (registerSubmit regForm0 msg0 (.resp true (some ⟨none⟩))).message.textContent
      = "Registration successful!" ∧
    (registerSubmit regForm0 msg0 (.resp true (some ⟨none⟩))).message.classes = ["success"] ∧
    isHidden (registerSubmit regForm0 msg0 (.resp true (some ⟨none⟩))).message = false :=
  c3_register_ok_resets_and_shows_success regForm0 msg0 ⟨none⟩

/-- C4 counterexample: a not-ok `/register` response whose JSON body
carries `detail` present but equal to the empty string displays the
generic fallback, because `result.detail || "Registration failed"`
treats the empty string as falsy; so the fallback is not shown only
when `detail` is absent. -/
theorem c4_empty_detail_counterexample :
    (registerSubmit regForm0 msg0 (.resp false (some ⟨some ""⟩))).message.textContent
      = "Registration failed" ∧
    (some "" : Option String) ≠ none := by
  decide

/-- C4 (amended): on a not-ok `/register` response with a JSON body,
the displayed error message is the server `detail` when it is present
and truthy (non-empty), and the generic fallback when `detail` is
absent or empty; in both cases the form fields are not reset. -/
theorem c4_register_error_shows_detail_or_fallback
    (f : RegisterForm) (m : MessageDiv) (d : String) :
    (registerSubmit f m (.resp false (some ⟨some d⟩))).message.textContent
      = (if d = "" then "Registration failed" else d) ∧
    (registerSubmit f m (.resp false (some ⟨none⟩))).message.textContent
      = "Registration failed" ∧
    (registerSubmit f m (.resp false (some ⟨some d⟩))).form = f ∧
    (registerSubmit f m (.resp false (some ⟨none⟩))).form = f := by
  simp [registerSubmit, jsStringOr, setClassName, classListRemove]

/-- C4 witness: the amended statement evaluated at a concrete form and
the detail string served for a duplicate registration. -/
theorem c4_register_error_witness :
    (registerSubmit regForm0 msg0
        (.resp false (some ⟨some "Email already registered"⟩))).message.textContent
      = (if "Email already registered" = "" then "Registration failed"
          else "Email already registered") ∧
    (registerSubmit regForm0 msg0 (.resp false (some ⟨none⟩))).message.textContent
      = "Registration failed" ∧
    (registerSubmit regForm0 msg0
        (.resp false (some ⟨some "Email already registered"⟩))).form = regForm0 ∧
    (registerSubmit regForm0 msg0 (.resp false (some ⟨none⟩))).form = regForm0 :=
  c4_register_error_shows_detail_or_fallback regForm0 msg0 "Email already registered"

/-- C5 (confirmed): a successful fetch renders exactly one card per
array element, in array order; every card displays the activity's
spots-left computed as `max_participants - current_participants`; and
an empty array renders an empty list and appends no dropdown option. -/
theorem c5_cards_count_order_and_spots_left
    (dom : ActivitiesDom) (activities : List Activity) (a : Activity) :
    (fetchActivities (.success activities) dom).activitiesList.length
      = activities.length ∧
    (fetchActivities (.success activities) dom).activitiesList
      = activities.map activityCardHtml ∧
    (∃ pre post, activityCardHtml a
      = pre ++ (toString (a.max_participants - a.current_participants) ++ " spots left")
          ++ post) ∧
    (fetchActivities (.success []) dom).activitiesList = [] ∧
    (fetchActivities (.success []) dom).activitySelect = dom.activitySelect := by
  refine ⟨by simp [fetchActivities], rfl, ?_, rfl, by simp [fetchActivities]⟩
  refine ⟨"<div class=\"activity-card\">" ++
    ("\n          <h4>" ++ a.name ++ "</h4>\n          <p>" ++ a.description ++
      "</p>\n          <p><strong>Schedule:</strong> " ++ a.schedule ++
      "</p>\n          <p><strong>Availability:</strong> "),
    "</p>\n        " ++ "</div>", ?_⟩
  simp [activityCardHtml, cardInnerHtml, spotsLeft, String.append_assoc]

/-- C6 (confirmed): a signup response with `ok` true and JSON body
carrying `message` displays exactly that server message with success
styling, resets the signup form, schedules the 5000 ms hide, and
triggers the activity-list refresh exactly once. -/
theorem c6_signup_success_message_reset_refresh
    (f : SignupForm) (m : MessageDiv) (t : String) (d : Option String) :
    (signupSubmit f m (.resp true (some ⟨some t, d⟩))).message.textContent = t ∧
    (signupSubmit f m (.resp true (some ⟨some t, d⟩))).form = resetSignupForm ∧
    (signupSubmit f m (.resp true (some ⟨some t, d⟩))).refreshCount = 1 ∧
    (signupSubmit f m (.resp true (some ⟨some t, d⟩))).message.classes = ["success"] ∧
    (signupSubmit f m (.resp true (some ⟨some t, d⟩))).hideDelays = [5000] := by
  simp [signupSubmit, jsTextOf, setClassName, classListRemove]

/-- C7 (confirmed): when the `/register` fetch rejects, or the response
body fails to parse as JSON, the displayed message is exactly the
generic failure string, shown visible with error styling, and the form
fields are untouched. -/
theorem c7_register_failure_message_and_frame
    (f : RegisterForm) (m : MessageDiv) (ok : Bool) :
    (registerSubmit f m .netFail).message.textContent
      = "Failed to register. Please try again." ∧
    (registerSubmit f m .netFail).form = f ∧
    (registerSubmit f m .netFail).message.classes = ["error"] ∧
    (registerSubmit f m (.resp ok none)).message.textContent
      = "Failed to register. Please try again." ∧
    (registerSubmit f m (.resp ok none)).form = f ∧
    (registerSubmit f m (.resp ok none)).message.classes = ["error"] := by
  simp [registerSubmit, registerCatchRun, setClassName, classListRemove]

/-- C8 (confirmed): when the activities fetch or its JSON parse fails,
the list content becomes the single fallback paragraph and the dropdown
options are exactly what they were before; `fetchActivities` is a total
function of the outcome, so no exception reaches its caller. -/
theorem c8_fetch_failure_fallback_dropdown_untouched (dom : ActivitiesDom) :
    (fetchActivities .failure dom).activitiesList = [failedToLoadHtml] ∧
    (fetchActivities .failure dom).activitySelect = dom.activitySelect := by
  exact ⟨rfl, rfl⟩

/-- C9 (confirmed): every signup run, whatever its outcome, issues a
POST whose URL is built from the activity id and the email each passed
through `encodeURIComponent`; the closing conjunct evaluates the
encoder on a string of reserved characters. -/
theorem c9_signup_request_url_encoded
    (f : SignupForm) (m : MessageDiv) (ev : HttpEvent SignupResult) :
    (signupSubmit f m ev).requestUrl
      = "/activities/" ++ encodeURIComponent f.activity ++ "/signup?email="
          ++ encodeURIComponent f.email ∧
    (signupSubmit f m ev).requestMethod = "POST" ∧
    encodeURIComponent "a b&c=d" = "a%20b%26c%3Dd" := by
  rcases ev with _ | ⟨ok, p⟩
  · exact ⟨rfl, rfl, by decide⟩
  · rcases p with _ | r
    · exact ⟨rfl, rfl, by decide⟩
    · cases ok
      · exact ⟨rfl, rfl, by decide⟩
      · exact ⟨rfl, rfl, by decide⟩

/-- C10 (confirmed): on every failing signup outcome — not-ok response
with a JSON body, unparsable body, or transport failure — the form
fields are exactly as submitted and no activity-list refresh is
triggered. -/
theorem c10_signup_failure_frame
    (f : SignupForm) (m : MessageDiv) (ok : Bool) (r : SignupResult) :
    (signupSubmit f m (.resp false (some r))).form = f ∧
    (signupSubmit f m (.resp false (some r))).refreshCount = 0 ∧
    (signupSubmit f m (.resp ok none)).form = f ∧
    (signupSubmit f m (.resp ok none)).refreshCount = 0 ∧
    (signupSubmit f m .netFail).form = f ∧
    (signupSubmit f m .netFail).refreshCount = 0 := by
  simp [signupSubmit, signupCatchRun]
